import Mathlib

/-!
Verification development for the cookie-consent widget
(src/cookie-consent.js).  The JavaScript source is shallowly embedded:
pure computations become Lean functions, the DOM / dataLayer side
effects become explicit effect lists, and the browser cookie jar
becomes an association list rendered to a raw cookie string.
-/

namespace CookieConsent

/-- Cookie-purpose categories, as used by `cookieDatabase` and the
consent decision's `categories` object. -/
inductive Category where
  | functional
  | analytics
  | performance
  | advertising
  | uncategorized
  deriving DecidableEq

/-- One detected cookie, as pushed by `scanAndCategorizeCookies`
(`{name, duration, description}`). -/
structure CookieRecord where
  name : String
  duration : String
  description : String
  deriving DecidableEq

/-- The `result` object of `scanAndCategorizeCookies`: one ordered
sequence of records per category. -/
structure Snapshot where
  functional : List CookieRecord
  analytics : List CookieRecord
  performance : List CookieRecord
  advertising : List CookieRecord
  uncategorized : List CookieRecord
  deriving DecidableEq

def emptySnapshot : Snapshot := ⟨[], [], [], [], []⟩

/-- `result[category].push(record)` from the scanner loop. -/
def pushCat (cat : Category) (r : CookieRecord) (s : Snapshot) : Snapshot :=
  match cat with
  | .functional => { s with functional := s.functional ++ [r] }
  | .analytics => { s with analytics := s.analytics ++ [r] }
  | .performance => { s with performance := s.performance ++ [r] }
  | .advertising => { s with advertising := s.advertising ++ [r] }
  | .uncategorized => { s with uncategorized := s.uncategorized ++ [r] }

/-- The `cookieDatabase` object literal (src lines 26-66), in source
order.  JavaScript `for (const pattern in cookieDatabase)` enumerates
these string keys in insertion order, so a list preserves the loop's
priority order. -/
def cookieDatabase : List (String × Category) := [
  ("_ga", .analytics),
  ("_gid", .analytics),
  ("_gat", .analytics),
  ("_ga_", .analytics),
  ("_dc_gtm_", .analytics),
  ("_gac_", .analytics),
  ("_fbp", .advertising),
  ("fr", .advertising),
  ("xs", .advertising),
  ("sb", .advertising),
  ("datr", .advertising),
  ("wordpress_", .functional),
  ("wp-settings", .functional),
  ("PHPSESSID", .functional),
  ("wordpress_logged_in", .functional),
  ("wordpress_test_cookie", .functional),
  ("wp-saving-post", .functional),
  ("__utma", .performance),
  ("__utmb", .performance),
  ("__utmc", .performance),
  ("__utmt", .performance),
  ("__utmz", .performance),
  ("__utmv", .performance),
  ("_hj", .performance),
  ("_gcl_au", .advertising),
  ("_gcl_aw", .advertising),
  ("_gcl_dc", .advertising),
  ("IDE", .advertising),
  ("test_cookie", .advertising),
  ("NID", .advertising)]

/-- Substring test on char lists: `pat` occurs contiguously in the
list.  Models JavaScript `String.prototype.includes`. -/
def hasSubstr : List Char → List Char → Bool
  | [], pat => pat.isEmpty
  | c :: cs, pat => pat.isPrefixOf (c :: cs) || hasSubstr cs pat

/-- `name.includes(pattern)` from the scanner loop. -/
def strIncludes (s pat : String) : Bool := hasSubstr s.data pat.data

/-- JavaScript `split(';')` on a single-character separator, at the
char-list level (used for `document.cookie.split(';')`). -/
def splitSemis : List Char → List (List Char)
  | [] => [[]]
  | c :: cs =>
    if c = ';' then [] :: splitSemis cs
    else
      match splitSemis cs with
      | [] => [[c]]
      | h :: t => (c :: h) :: t

/-- JavaScript `String.prototype.trim`: strip whitespace from both ends. -/
def trimChars (l : List Char) : List Char :=
  ((l.dropWhile Char.isWhitespace).reverse.dropWhile Char.isWhitespace).reverse

/-- `cookie.trim().split('=')` destructured to its first element
(`const [name] = ...`): the characters before the first `=` of the
trimmed entry. -/
def parseName (cookie : String) : String :=
  String.mk ((trimChars cookie.data).takeWhile (fun ch => ch != '='))

/-- The `descriptions` object of `getCookieDescription`, an exact-name
lookup table. -/
def cookieDescriptions : List (String × String) := [
  ("_ga", "Google Analytics cookie used to distinguish users (2 years)"),
  ("_gid", "Google Analytics cookie used to distinguish users (24 hours)"),
  ("_gat", "Google Analytics cookie used to throttle request rate (1 minute)"),
  ("_fbp", "Facebook Pixel cookie used to track conversions (3 months)"),
  ("fr", "Facebook cookie used to deliver a series of advertisement products (3 months)"),
  ("wordpress_logged_in", "WordPress cookie indicating when you\x27re logged in (session)"),
  ("wordpress_test_cookie", "WordPress test cookie to check if cookies are enabled (session)"),
  ("PHPSESSID", "PHP session cookie essential for website functionality (session)"),
  ("NID", "Google advertising cookie used for user tracking (6 months)"),
  ("IDE", "Google DoubleClick advertising cookie (1 year)")]

/-- `getCookieDescription(name)`: `descriptions[name] || 'No description available'`. -/
def getCookieDescription (name : String) : String :=
  match cookieDescriptions.find? (fun p => p.1 == name) with
  | some p => p.2
  | none => "No description available"

/-- Body of the `cookies.forEach` loop of `scanAndCategorizeCookies`:
extract the name, try the database patterns in order stopping at the
first match, else (for a non-empty name) push to `uncategorized`.
`getDur` stands for `getCookieDuration`, whose result depends on the
ambient `document.cookie` and the real-time clock (`new Date()`) and is
therefore passed in as a parameter of the embedding. -/
def scanStep (getDur : String → String) (acc : Snapshot) (cookie : String) : Snapshot :=
  let name := parseName cookie
  match cookieDatabase.find? (fun pc => strIncludes name pc.1) with
  | some pc => pushCat pc.2 ⟨name, getDur name, getCookieDescription name⟩ acc
  | none =>
    if name = "" then acc
    else pushCat .uncategorized ⟨name, getDur name, "Unknown cookie purpose"⟩ acc

/-- `scanAndCategorizeCookies()`: split `document.cookie` on `;` and
fold the per-cookie classification step over the entries. -/
def scanAndCategorizeCookies (getDur : String → String) (doc : String) : Snapshot :=
  ((splitSemis doc.data).map String.mk).foldl (scanStep getDur) emptySnapshot

/-- The `status` field of a persisted decision.  The three writer
operations only ever produce these three strings. -/
inductive Status where
  | accepted
  | rejected
  | custom
  deriving DecidableEq

def statusStr : Status → String
  | .accepted => "accepted"
  | .rejected => "rejected"
  | .custom => "custom"

/-- The `gcs` field stored in a persisted decision. -/
inductive Gcs where
  | g111
  | g100
  | g101
  deriving DecidableEq

def gcsStr : Gcs → String
  | .g111 => "G111"
  | .g100 => "G100"
  | .g101 => "G101"

/-- The `categories` object of a `ConsentDecision`. -/
structure Categories where
  functional : Bool
  analytics : Bool
  performance : Bool
  advertising : Bool
  uncategorized : Bool
  deriving DecidableEq

/-- A persisted consent decision
(`{status, gcs, categories, timestamp}`).  The `timestamp` is the
epoch-millisecond value of `new Date().getTime()`. -/
structure ConsentDecision where
  status : Status
  gcs : Gcs
  categories : Categories
  timestamp : Nat
  deriving DecidableEq

/-- The `consentStates` object computed by `updateConsentMode`
(src lines 335-343): per-signal `'granted'`/`'denied'` strings. -/
structure ConsentStates where
  ad_storage : String
  analytics_storage : String
  ad_user_data : String
  ad_personalization : String
  personalization_storage : String
  functionality_storage : String
  security_storage : String
  deriving DecidableEq

def consentStatesFor (d : ConsentDecision) : ConsentStates where
  ad_storage := if d.categories.advertising then "granted" else "denied"
  analytics_storage := if d.categories.analytics then "granted" else "denied"
  ad_user_data := if d.categories.advertising then "granted" else "denied"
  ad_personalization := if d.categories.advertising then "granted" else "denied"
  personalization_storage := if d.categories.performance then "granted" else "denied"
  functionality_storage := "granted"
  security_storage := "granted"

/-- GCS-signal computation of `updateConsentMode` (src lines 348-355):
`'G100'` by default, `'G111'` for status `'accepted'`, `'G101'` for
status `'custom'`.  Operates on the raw status string, as the source
compares strings. -/
def gcsSignalStr (status : String) : String :=
  if status = "accepted" then "G111"
  else if status = "custom" then "G101"
  else "G100"

/-- The GCS signal `updateConsentMode` emits for a decision. -/
def updateGcs (d : ConsentDecision) : String := gcsSignalStr (statusStr d.status)

/-- Observable side effects of the consent flow (gtag / dataLayer
pushes, cookie writes, loader bootstraps, UI visibility changes). -/
inductive Effect where
  | setConsentCookie (value : String) (days : Nat)
  | gtagConsentUpdate (states : ConsentStates)
  | dataLayerPush (states : ConsentStates) (gcs : String)
  | loadAnalytics
  | loadAdvertising
  | loadPerformance
  | showBanner
  | hideBanner
  | showSettings
  | hideSettings
  deriving DecidableEq

/-- Effects of `updateConsentMode(consentData)`: the `gtag('consent',
'update', ...)` call followed by the `dataLayer.push` of the GCS
signal. -/
def updateConsentModeEffects (d : ConsentDecision) : List Effect :=
  [.gtagConsentUpdate (consentStatesFor d),
   .dataLayerPush (consentStatesFor d) (updateGcs d)]

/-- `loadCookiesAccordingToConsent(consentData)`: bootstrap each
granted non-essential loader. -/
def loadCookiesAccordingToConsent (d : ConsentDecision) : List Effect :=
  (if d.categories.analytics then [.loadAnalytics] else []) ++
  (if d.categories.advertising then [.loadAdvertising] else []) ++
  (if d.categories.performance then [.loadPerformance] else [])

/-- The decision literal built by `acceptAllCookies` (src lines 372-383). -/
def acceptAllDecision (ts : Nat) : ConsentDecision :=
  ⟨.accepted, .g111, ⟨true, true, true, true, true⟩, ts⟩

/-- The decision literal built by `rejectAllCookies` (src lines 391-402). -/
def rejectAllDecision (ts : Nat) : ConsentDecision :=
  ⟨.rejected, .g100, ⟨true, false, false, false, false⟩, ts⟩

/-- The decision built by `saveCustomSettings` (src lines 409-421) from
the settings-panel toggles.  `uncat` is `some b` when the
`data-category="uncategorized"` input exists in the DOM with checked
state `b`, and `none` when `querySelector` returns `null` (the source
then falls back to `false`). -/
def saveCustomDecision (ts : Nat) (analytics performance advertising : Bool)
    (uncat : Option Bool) : ConsentDecision :=
  ⟨.custom, .g101,
   ⟨true, analytics, performance, advertising,
    match uncat with | some b => b | none => false⟩, ts⟩

/-- Char list of a string literal (serialization building block). -/
def lit (s : String) : List Char := s.data

def digitChar (n : Nat) : Char := Char.ofNat (48 + n)

/-- Fuel-based recursion for `natChars` (structural in the fuel, so the
kernel can evaluate it). -/
def natCharsAux : Nat → Nat → List Char
  | 0, _ => []
  | fuel + 1, n =>
    if n < 10 then [digitChar n]
    else natCharsAux fuel (n / 10) ++ [digitChar (n % 10)]

/-- Decimal digits of a natural number, most significant first: how
`JSON.stringify` renders the integer `timestamp`.  The fuel `n + 1`
always suffices since the argument shrinks by a factor of ten each
step. -/
def natChars (n : Nat) : List Char := natCharsAux (n + 1) n

/-- `true` / `false`, as `JSON.stringify` renders a boolean. -/
def boolChars (b : Bool) : List Char := if b then lit "true" else lit "false"

def pieceStatus : List Char := lit "\x7b\"status\":\""
def pieceGcs : List Char := lit "\",\"gcs\":\""
def pieceCats : List Char := lit "\",\"categories\":\x7b\"functional\":"
def pieceAnalytics : List Char := lit ",\"analytics\":"
def piecePerf : List Char := lit ",\"performance\":"
def pieceAdv : List Char := lit ",\"advertising\":"
def pieceUncat : List Char := lit ",\"uncategorized\":"
def pieceTimestamp : List Char := lit "\x7d,\"timestamp\":"
def pieceClose : List Char := lit "\x7d"

def statusChars (st : Status) : List Char := lit (statusStr st)

def gcsChars (g : Gcs) : List Char := lit (gcsStr g)

/-- `JSON.stringify(consentData)` for the object literals the three
writers build: keys appear in insertion order, no whitespace. -/
def stringifyChars (d : ConsentDecision) : List Char :=
  pieceStatus ++ statusChars d.status ++
  pieceGcs ++ gcsChars d.gcs ++
  pieceCats ++ boolChars d.categories.functional ++
  pieceAnalytics ++ boolChars d.categories.analytics ++
  piecePerf ++ boolChars d.categories.performance ++
  pieceAdv ++ boolChars d.categories.advertising ++
  pieceUncat ++ boolChars d.categories.uncategorized ++
  pieceTimestamp ++ natChars d.timestamp ++ pieceClose

def stringifyDecision (d : ConsentDecision) : String := ⟨stringifyChars d⟩

/-- Consume a fixed expected leading sequence, returning the remainder,
or fail. -/
def dropPfx : List Char → List Char → Option (List Char)
  | [], cs => some cs
  | _ :: _, [] => none
  | p :: ps, c :: cs => if p = c then dropPfx ps cs else none

def parseStatusTok (cs : List Char) : Option (Status × List Char) :=
  match dropPfx (lit "accepted") cs with
  | some r => some (.accepted, r)
  | none =>
    match dropPfx (lit "rejected") cs with
    | some r => some (.rejected, r)
    | none =>
      match dropPfx (lit "custom") cs with
      | some r => some (.custom, r)
      | none => none

def parseGcsTok (cs : List Char) : Option (Gcs × List Char) :=
  match dropPfx (lit "G111") cs with
  | some r => some (.g111, r)
  | none =>
    match dropPfx (lit "G100") cs with
    | some r => some (.g100, r)
    | none =>
      match dropPfx (lit "G101") cs with
      | some r => some (.g101, r)
      | none => none

def parseBoolTok (cs : List Char) : Option (Bool × List Char) :=
  match dropPfx (lit "true") cs with
  | some r => some (true, r)
  | none =>
    match dropPfx (lit "false") cs with
    | some r => some (false, r)
    | none => none

/-- Greedy split into a leading run of decimal digits and the rest. -/
def spanDigits : List Char → List Char × List Char
  | [] => ([], [])
  | c :: cs =>
    if c.isDigit then (c :: (spanDigits cs).1, (spanDigits cs).2)
    else ([], c :: cs)

/-- Numeric value of a digit run (decimal). -/
def digitsVal (ds : List Char) : Nat :=
  ds.foldl (fun a c => a * 10 + (c.toNat - 48)) 0

def parseNatTok (cs : List Char) : Option (Nat × List Char) :=
  let p := spanDigits cs
  if p.1.isEmpty then none else some (digitsVal p.1, p.2)

/-- Decoder for the `categories` object body: the five booleans with
their literal key separators, starting after `pieceCats`. -/
def parseCatsTok (cs : List Char) : Option (Categories × List Char) :=
  match parseBoolTok cs with
  | none => none
  | some bf =>
  match dropPfx pieceAnalytics bf.2 with
  | none => none
  | some cs4 =>
  match parseBoolTok cs4 with
  | none => none
  | some ba =>
  match dropPfx piecePerf ba.2 with
  | none => none
  | some cs5 =>
  match parseBoolTok cs5 with
  | none => none
  | some bp =>
  match dropPfx pieceAdv bp.2 with
  | none => none
  | some cs6 =>
  match parseBoolTok cs6 with
  | none => none
  | some badv =>
  match dropPfx pieceUncat badv.2 with
  | none => none
  | some cs7 =>
  match parseBoolTok cs7 with
  | none => none
  | some bu => some (⟨bf.1, ba.1, bp.1, badv.1, bu.1⟩, bu.2)

/-- `JSON.parse` specialized to the decision schema the widget
persists: accepts exactly the strings `JSON.stringify` produces for a
`ConsentDecision` and rejects everything else.  (`JSON.parse` itself
throws a `SyntaxError` on input that is not JSON; decoding failure here
models that throw for the inputs used in the theorems below.) -/
def parseChars (cs : List Char) : Option ConsentDecision :=
  match dropPfx pieceStatus cs with
  | none => none
  | some cs1 =>
  match parseStatusTok cs1 with
  | none => none
  | some st =>
  match dropPfx pieceGcs st.2 with
  | none => none
  | some cs2 =>
  match parseGcsTok cs2 with
  | none => none
  | some g =>
  match dropPfx pieceCats g.2 with
  | none => none
  | some cs3 =>
  match parseCatsTok cs3 with
  | none => none
  | some cats =>
  match dropPfx pieceTimestamp cats.2 with
  | none => none
  | some cs8 =>
  match parseNatTok cs8 with
  | none => none
  | some t => if t.2 = pieceClose then some ⟨st.1, g.1, cats.1, t.1⟩ else none

def parseDecision (s : String) : Option ConsentDecision := parseChars s.data

/-- Browser cookie jar: the attributes of `setCookie` (`expires`,
`path`, `SameSite`, `Secure`) are consumed by the browser and are not
part of the readable `document.cookie` string, so the jar stores
name/value pairs.  `setCookie(name, value, days)` overwrites an
existing cookie of the same name or appends a new one. -/
def setCookieJar (name value : String) (jar : List (String × String)) :
    List (String × String) :=
  if jar.any (fun nv => nv.1 == name) then
    jar.map (fun nv => if nv.1 == name then (name, value) else nv)
  else jar ++ [(name, value)]

/-- The readable `document.cookie` string the browser renders from the
jar: `name=value` pairs joined by `"; "`. -/
def docCookie : List (String × String) → String
  | [] => ""
  | [nv] => nv.1 ++ "=" ++ nv.2
  | nv :: rest => nv.1 ++ "=" ++ nv.2 ++ "; " ++ docCookie rest

/-- One iteration of the `getCookie` loop: strip leading spaces, and if
the entry starts with `name=`, return the rest of the entry. -/
def getCookiePiece (name : String) (c : List Char) : Option String :=
  match dropPfx (name ++ "=").data (c.dropWhile (fun ch => ch = ' ')) with
  | some rest => some (String.mk rest)
  | none => none

/-- The `for` loop of `getCookie`: first matching entry wins (early
`return`). -/
def firstPieceMatch (name : String) : List (List Char) → Option String
  | [] => none
  | c :: rest =>
    match getCookiePiece name c with
    | some v => some v
    | none => firstPieceMatch name rest

/-- `getCookie(name)` (src lines 514-523), as a function of the
readable `document.cookie` string. -/
def getCookie (name doc : String) : Option String :=
  firstPieceMatch name (splitSemis doc.data)

/-- Outcome of the decision-handling prefix of
`initializeCookieConsent` (src lines 289-298). -/
inductive InitOutcome where
  | bannerShown
  | applied (d : ConsentDecision)
  | thrown
  deriving DecidableEq

/-- Decision-handling prefix of `initializeCookieConsent`: with no (or
falsy, i.e. empty) persisted value the banner is shown; otherwise the
value is fed to `JSON.parse` with no `try`/`catch`, so an undecodable
value makes the exception escape (`thrown`), and a decodable one is
applied via `updateConsentMode` / `loadCookiesAccordingToConsent`. -/
def initializeCookieConsent (persisted : Option String) : InitOutcome :=
  match persisted with
  | none => .bannerShown
  | some s =>
    if s = "" then .bannerShown
    else
      match parseDecision s with
      | some d => .applied d
      | none => .thrown

/-- Whether an init outcome shows the banner. -/
def bannerShownOnInit : InitOutcome → Bool
  | .bannerShown => true
  | _ => false

/-- Effects of `acceptAllCookies()`: persist, update consent mode, load
granted categories. -/
def acceptAllCookiesEffects (ts : Nat) : List Effect :=
  [.setConsentCookie (stringifyDecision (acceptAllDecision ts)) 365] ++
  updateConsentModeEffects (acceptAllDecision ts) ++
  loadCookiesAccordingToConsent (acceptAllDecision ts)

/-- Effects of `rejectAllCookies()`: persist and update consent mode;
the source never calls `loadCookiesAccordingToConsent` here. -/
def rejectAllCookiesEffects (ts : Nat) : List Effect :=
  [.setConsentCookie (stringifyDecision (rejectAllDecision ts)) 365] ++
  updateConsentModeEffects (rejectAllDecision ts)

/-- Effects of `saveCustomSettings()`. -/
def saveCustomSettingsEffects (ts : Nat) (a p adv : Bool) (uncat : Option Bool) :
    List Effect :=
  [.setConsentCookie (stringifyDecision (saveCustomDecision ts a p adv uncat)) 365] ++
  updateConsentModeEffects (saveCustomDecision ts a p adv uncat) ++
  loadCookiesAccordingToConsent (saveCustomDecision ts a p adv uncat)

/-- The `rejectAllBtn` click handler: `rejectAllCookies()` then
`hideCookieBanner()`. -/
def rejectAllBtnHandler (ts : Nat) : List Effect :=
  rejectAllCookiesEffects ts ++ [.hideBanner]

/-- Whether an effect is a third-party loader bootstrap. -/
def isLoadEffect : Effect → Bool
  | .loadAnalytics => true
  | .loadAdvertising => true
  | .loadPerformance => true
  | _ => false

theorem dropPfx_self_append (p r : List Char) : dropPfx p (p ++ r) = some r := by
  induction p with
  | nil => rfl
  | cons c cs ih => simp [dropPfx, ih]

theorem dropPfx_acc_rej (r : List Char) :
    dropPfx (lit "accepted") (lit "rejected" ++ r) = none := rfl

theorem dropPfx_acc_cus (r : List Char) :
    dropPfx (lit "accepted") (lit "custom" ++ r) = none := rfl

theorem dropPfx_rej_cus (r : List Char) :
    dropPfx (lit "rejected") (lit "custom" ++ r) = none := rfl

theorem dropPfx_g111_g100 (r : List Char) :
    dropPfx (lit "G111") (lit "G100" ++ r) = none := rfl

theorem dropPfx_g111_g101 (r : List Char) :
    dropPfx (lit "G111") (lit "G101" ++ r) = none := rfl

theorem dropPfx_g100_g101 (r : List Char) :
    dropPfx (lit "G100") (lit "G101" ++ r) = none := rfl

theorem dropPfx_true_false (r : List Char) :
    dropPfx (lit "true") (lit "false" ++ r) = none := rfl

theorem parseStatusTok_rt (st : Status) (r : List Char) :
    parseStatusTok (statusChars st ++ r) = some (st, r) := by
  cases st <;>
    simp [parseStatusTok, statusChars, statusStr, dropPfx_self_append,
      dropPfx_acc_rej, dropPfx_acc_cus, dropPfx_rej_cus]

theorem parseGcsTok_rt (g : Gcs) (r : List Char) :
    parseGcsTok (gcsChars g ++ r) = some (g, r) := by
  cases g <;>
    simp [parseGcsTok, gcsChars, gcsStr, dropPfx_self_append,
      dropPfx_g111_g100, dropPfx_g111_g101, dropPfx_g100_g101]

theorem parseBoolTok_rt (b : Bool) (r : List Char) :
    parseBoolTok (boolChars b ++ r) = some (b, r) := by
  cases b <;>
    simp [parseBoolTok, boolChars, dropPfx_self_append, dropPfx_true_false]

theorem digitChar_isDigit (m : Nat) (hm : m < 10) : (digitChar m).isDigit = true := by
  interval_cases m <;> decide

theorem digitChar_toNat (m : Nat) (hm : m < 10) : (digitChar m).toNat = 48 + m := by
  interval_cases m <;> decide

theorem natCharsAux_irrel (f1 : Nat) :
    ∀ f2 n, n < f1 → n < f2 → natCharsAux f1 n = natCharsAux f2 n := by
  induction f1 with
  | zero => intro f2 n h1 _; omega
  | succ g ih =>
    intro f2 n h1 h2
    cases f2 with
    | zero => omega
    | succ g2 =>
      simp only [natCharsAux]
      by_cases hn : n < 10
      · simp [hn]
      · have hd : n / 10 < n := Nat.div_lt_self (by omega) (by omega)
        simp only [hn, if_false]
        rw [ih g2 (n / 10) (by omega) (by omega)]

theorem natChars_digits (n : Nat) : ∀ c ∈ natChars n, c.isDigit = true := by
  unfold natChars
  generalize n + 1 = fuel
  induction fuel generalizing n with
  | zero => intro c hc; simp [natCharsAux] at hc
  | succ g ih =>
    intro c hc
    simp only [natCharsAux] at hc
    by_cases hn : n < 10
    · simp [hn] at hc
      exact hc ▸ digitChar_isDigit n hn
    · simp [hn, List.mem_append] at hc
      rcases hc with hc | hc
      · exact ih (n / 10) c hc
      · exact hc ▸ digitChar_isDigit (n % 10) (Nat.mod_lt n (by omega))

theorem digitsVal_append_single (x : List Char) (c : Char) :
    digitsVal (x ++ [c]) = digitsVal x * 10 + (c.toNat - 48) := by
  simp [digitsVal, List.foldl_append]

theorem natCharsAux_val (fuel : Nat) :
    ∀ n, n < fuel → digitsVal (natCharsAux fuel n) = n := by
  induction fuel with
  | zero => intro n h; omega
  | succ g ih =>
    intro n h
    simp only [natCharsAux]
    by_cases hn : n < 10
    · simp [hn, digitsVal, digitChar_toNat n hn]
    · have hd : n / 10 < n := Nat.div_lt_self (by omega) (by omega)
      simp only [hn, if_false]
      rw [digitsVal_append_single, ih (n / 10) (by omega),
        digitChar_toNat (n % 10) (Nat.mod_lt n (by omega))]
      omega

theorem digitsVal_natChars (n : Nat) : digitsVal (natChars n) = n :=
  natCharsAux_val (n + 1) n (by omega)

theorem natChars_ne_nil (n : Nat) : natChars n ≠ [] := by
  unfold natChars
  simp only [natCharsAux]
  split <;> simp

theorem spanDigits_append (ds : List Char) (c : Char) (r : List Char)
    (hall : ∀ x ∈ ds, x.isDigit = true) (hc : c.isDigit = false) :
    spanDigits (ds ++ c :: r) = (ds, c :: r) := by
  induction ds with
  | nil => simp [spanDigits, hc]
  | cons d ds ih =>
    have hd : d.isDigit = true := hall d (by simp)
    simp [spanDigits, hd, ih (fun x hx => hall x (by simp [hx]))]

theorem parseNatTok_append (n : Nat) (c : Char) (r : List Char)
    (hc : c.isDigit = false) :
    parseNatTok (natChars n ++ c :: r) = some (n, c :: r) := by
  simp [parseNatTok, spanDigits_append (natChars n) c r (natChars_digits n) hc,
    List.isEmpty_iff, natChars_ne_nil, digitsVal_natChars]

theorem parseNatTok_close (n : Nat) :
    parseNatTok (natChars n ++ pieceClose) = some (n, pieceClose) :=
  parseNatTok_append n '\x7d' [] (by decide)

theorem parseCatsTok_rt (f a p adv u : Bool) (r : List Char) :
    parseCatsTok (boolChars f ++ (pieceAnalytics ++ (boolChars a ++ (piecePerf ++
      (boolChars p ++ (pieceAdv ++ (boolChars adv ++ (pieceUncat ++
      (boolChars u ++ r))))))))) = some (⟨f, a, p, adv, u⟩, r) := by
  simp [parseCatsTok, parseBoolTok_rt, dropPfx_self_append]

/-- `JSON.parse` inverts `JSON.stringify` on every consent decision. -/
theorem parseChars_stringifyChars (d : ConsentDecision) :
    parseChars (stringifyChars d) = some d := by
  obtain ⟨st, g, ⟨f, a, p, adv, u⟩, t⟩ := d
  simp [stringifyChars, parseChars, dropPfx_self_append, parseStatusTok_rt,
    parseGcsTok_rt, parseCatsTok_rt, parseNatTok_close]

theorem statusChars_noSemi (st : Status) : ∀ c ∈ statusChars st, c ≠ ';' := by
  cases st <;> decide

theorem gcsChars_noSemi (g : Gcs) : ∀ c ∈ gcsChars g, c ≠ ';' := by
  cases g <;> decide

theorem boolChars_noSemi (b : Bool) : ∀ c ∈ boolChars b, c ≠ ';' := by
  cases b <;> decide

theorem natChars_noSemi (n : Nat) : ∀ c ∈ natChars n, c ≠ ';' := by
  intro c hc he
  have hd := natChars_digits n c hc
  rw [he] at hd
  exact absurd hd (by decide)

/-- The serialized decision contains no `;`, so it survives the
`split(';')` of a later `getCookie`. -/
theorem stringify_noSemi (d : ConsentDecision) : ∀ c ∈ stringifyChars d, c ≠ ';' := by
  intro c hc
  simp only [stringifyChars, List.append_assoc, List.mem_append] at hc
  rcases hc with h | h | h | h | h | h | h | h | h | h | h | h | h | h | h | h | h
  · exact (by decide : ∀ x ∈ pieceStatus, x ≠ ';') c h
  · exact statusChars_noSemi d.status c h
  · exact (by decide : ∀ x ∈ pieceGcs, x ≠ ';') c h
  · exact gcsChars_noSemi d.gcs c h
  · exact (by decide : ∀ x ∈ pieceCats, x ≠ ';') c h
  · exact boolChars_noSemi d.categories.functional c h
  · exact (by decide : ∀ x ∈ pieceAnalytics, x ≠ ';') c h
  · exact boolChars_noSemi d.categories.analytics c h
  · exact (by decide : ∀ x ∈ piecePerf, x ≠ ';') c h
  · exact boolChars_noSemi d.categories.performance c h
  · exact (by decide : ∀ x ∈ pieceAdv, x ≠ ';') c h
  · exact boolChars_noSemi d.categories.advertising c h
  · exact (by decide : ∀ x ∈ pieceUncat, x ≠ ';') c h
  · exact boolChars_noSemi d.categories.uncategorized c h
  · exact (by decide : ∀ x ∈ pieceTimestamp, x ≠ ';') c h
  · exact natChars_noSemi d.timestamp c h
  · exact (by decide : ∀ x ∈ pieceClose, x ≠ ';') c h

/-- `split(';')` leaves a semicolon-free string in one piece. -/
theorem splitSemis_noSemi (l : List Char) (h : ∀ c ∈ l, c ≠ ';') :
    splitSemis l = [l] := by
  induction l with
  | nil => rfl
  | cons c cs ih =>
    have hc : c ≠ ';' := h c (by simp)
    simp [splitSemis, hc, ih (fun x hx => h x (by simp [hx]))]

/-- Writing the serialized decision into an empty jar and reading it
back through `document.cookie` returns the value unchanged. -/
theorem getCookie_after_set (d : ConsentDecision) :
    getCookie "cookie_consent"
      (docCookie (setCookieJar "cookie_consent" (stringifyDecision d) [])) =
      some (stringifyDecision d) := by
  have hsemi : ∀ c ∈ lit "cookie_consent=" ++ stringifyChars d, c ≠ ';' := by
    intro c hc
    rcases List.mem_append.mp hc with h | h
    · exact (by decide : ∀ x ∈ lit "cookie_consent=", x ≠ ';') c h
    · exact stringify_noSemi d c h
  have hdoc : (docCookie (setCookieJar "cookie_consent" (stringifyDecision d) [])).data
      = lit "cookie_consent=" ++ stringifyChars d := rfl
  have hdrop : (lit "cookie_consent=" ++ stringifyChars d).dropWhile (fun ch => ch = ' ')
      = lit "cookie_consent=" ++ stringifyChars d := rfl
  have hname : ("cookie_consent" ++ "=").data = lit "cookie_consent=" := rfl
  have hfin : dropPfx (lit "cookie_consent=") (lit "cookie_consent=" ++ stringifyChars d)
      = some (stringifyChars d) := dropPfx_self_append _ _
  unfold getCookie
  rw [hdoc, splitSemis_noSemi _ hsemi]
  simp only [firstPieceMatch, getCookiePiece, hdrop, hname]
  rw [hfin]
  rfl

theorem stringifyDecision_ne_empty (d : ConsentDecision) : stringifyDecision d ≠ "" := by
  intro h
  have hh : (stringifyDecision d).data.head? = some '\x7b' := rfl
  rw [h] at hh
  exact absurd hh (by decide)

/-- `List.find?` returns the element at the first index satisfying the
predicate. -/
theorem find?_eq_of_first {α : Type} (l : List α) (p : α → Bool) :
    ∀ (j : Nat) (hj : j < l.length), p (l.get ⟨j, hj⟩) = true →
    (∀ k (hk : k < j), p (l.get ⟨k, hk.trans hj⟩) = false) →
    l.find? p = some (l.get ⟨j, hj⟩) := by
  induction l with
  | nil => intro j hj _ _; simp at hj
  | cons a tl ih =>
    intro j hj hp hfirst
    cases j with
    | zero => exact List.find?_cons_of_pos _ hp
    | succ j' =>
      have ha : p a = false := hfirst 0 (Nat.succ_pos j')
      rw [List.find?_cons_of_neg _ (by simp [ha])]
      exact ih j' (Nat.lt_of_succ_lt_succ hj) hp
        (fun k hk => hfirst (k + 1) (Nat.succ_lt_succ hk))

/-- Claim C1: for every consent decision passed to `updateConsentMode`,
the consent-state map it computes and pushes grants `ad_storage`,
`ad_user_data` and `ad_personalization` exactly when
`categories.advertising` is set, grants `analytics_storage` exactly
when `categories.analytics` is set, grants `personalization_storage`
exactly when `categories.performance` is set, always grants
`functionality_storage` and `security_storage`, and each key is
otherwise denied; the map is pushed via the gtag consent-update
effect. -/
theorem c1_update_consent_state_map (d : ConsentDecision) :
    ((consentStatesFor d).ad_storage = "granted" ↔ d.categories.advertising = true) ∧
    ((consentStatesFor d).ad_user_data = "granted" ↔ d.categories.advertising = true) ∧
    ((consentStatesFor d).ad_personalization = "granted" ↔ d.categories.advertising = true) ∧
    ((consentStatesFor d).analytics_storage = "granted" ↔ d.categories.analytics = true) ∧
    ((consentStatesFor d).personalization_storage = "granted" ↔ d.categories.performance = true) ∧
    (consentStatesFor d).functionality_storage = "granted" ∧
    (consentStatesFor d).security_storage = "granted" ∧
    ((consentStatesFor d).ad_storage = "denied" ↔ d.categories.advertising = false) ∧
    ((consentStatesFor d).ad_user_data = "denied" ↔ d.categories.advertising = false) ∧
    ((consentStatesFor d).ad_personalization = "denied" ↔ d.categories.advertising = false) ∧
    ((consentStatesFor d).analytics_storage = "denied" ↔ d.categories.analytics = false) ∧
    ((consentStatesFor d).personalization_storage = "denied" ↔ d.categories.performance = false) ∧
    Effect.gtagConsentUpdate (consentStatesFor d) ∈ updateConsentModeEffects d := by
  obtain ⟨st, g, ⟨f, a, p, adv, u⟩, t⟩ := d
  cases a <;> cases p <;> cases adv <;>
    simp [consentStatesFor, updateConsentModeEffects]

/-- Claim C2: the GCS signal computed by `updateConsentMode` is a
total, deterministic function of the decision's status field alone:
`accepted` yields `G111`, `rejected` yields `G100`, `custom` yields
`G101`, and two decisions with the same status always produce the same
signal. -/
theorem c2_gcs_signal_of_status :
    gcsSignalStr "accepted" = "G111" ∧
    gcsSignalStr "rejected" = "G100" ∧
    gcsSignalStr "custom" = "G101" ∧
    (∀ g c t, updateGcs ⟨.accepted, g, c, t⟩ = "G111") ∧
    (∀ g c t, updateGcs ⟨.rejected, g, c, t⟩ = "G100") ∧
    (∀ g c t, updateGcs ⟨.custom, g, c, t⟩ = "G101") ∧
    (∀ st g1 g2 c1 c2 t1 t2,
      updateGcs ⟨st, g1, c1, t1⟩ = updateGcs ⟨st, g2, c2, t2⟩) := by
  refine ⟨by decide, by decide, by decide, fun g c t => rfl, fun g c t => rfl,
    fun g c t => rfl, fun st g1 g2 c1 c2 t1 t2 => ?_⟩
  cases st <;> rfl

/-- Claim C3: `acceptAllCookies` always builds a decision with every
category granted, and `rejectAllCookies` always builds a decision with
`functional` granted and every other category denied. -/
theorem c3_accept_reject_categories (ts : Nat) :
    (acceptAllDecision ts).categories.functional = true ∧
    (acceptAllDecision ts).categories.analytics = true ∧
    (acceptAllDecision ts).categories.performance = true ∧
    (acceptAllDecision ts).categories.advertising = true ∧
    (acceptAllDecision ts).categories.uncategorized = true ∧
    (rejectAllDecision ts).categories.functional = true ∧
    (rejectAllDecision ts).categories.analytics = false ∧
    (rejectAllDecision ts).categories.performance = false ∧
    (rejectAllDecision ts).categories.advertising = false ∧
    (rejectAllDecision ts).categories.uncategorized = false :=
  ⟨rfl, rfl, rfl, rfl, rfl, rfl, rfl, rfl, rfl, rfl⟩

/-- Claim C4: every decision constructed by the three writer
operations has `categories.functional = true`, regardless of the
timestamp, the toggle states and the presence of the uncategorized
toggle. -/
theorem c4_functional_always_granted (ts : Nat) (a p adv : Bool) (uncat : Option Bool) :
    (acceptAllDecision ts).categories.functional = true ∧
    (rejectAllDecision ts).categories.functional = true ∧
    (saveCustomDecision ts a p adv uncat).categories.functional = true :=
  ⟨rfl, rfl, rfl⟩

/-- Claim C5: when a cookie's parsed name contains the database
pattern at index `j` and none of the earlier patterns, the scan step
appends the cookie's record to the category of that pattern — the loop
stops at the first matching pattern in the database's insertion
order. -/
theorem c5_first_pattern_wins (getDur : String → String) (acc : Snapshot)
    (cookie : String) (j : Nat) (hj : j < cookieDatabase.length)
    (hmatch : strIncludes (parseName cookie) (cookieDatabase.get ⟨j, hj⟩).1 = true)
    (hfirst : ∀ k (hk : k < j),
      strIncludes (parseName cookie) (cookieDatabase.get ⟨k, hk.trans hj⟩).1 = false) :
    scanStep getDur acc cookie =
      pushCat (cookieDatabase.get ⟨j, hj⟩).2
        ⟨parseName cookie, getDur (parseName cookie),
         getCookieDescription (parseName cookie)⟩ acc := by
  have hfind := find?_eq_of_first cookieDatabase
    (fun pc => strIncludes (parseName cookie) pc.1) j hj hmatch hfirst
  simp [scanStep, hfind]

set_option maxRecDepth 4000 in
/-- Witness for C5: `"_ga=123"` matches the first database pattern
`"_ga"` (it also contains the later pattern `"_ga_"`-free prefix, and
`"_ga_123"`-style names would match several patterns), and the record
lands in `analytics`. -/
theorem c5_first_pattern_wins_witness :
    strIncludes (parseName "_ga=123") (cookieDatabase.get ⟨0, by decide⟩).1 = true ∧
    scanStep (fun _ => "Session") emptySnapshot "_ga=123" =
      pushCat (cookieDatabase.get ⟨0, by decide⟩).2
        ⟨parseName "_ga=123", (fun _ : String => "Session") (parseName "_ga=123"),
         getCookieDescription (parseName "_ga=123")⟩ emptySnapshot :=
  ⟨by decide, c5_first_pattern_wins (fun _ => "Session") emptySnapshot "_ga=123" 0
    (by decide) (by decide) (fun k hk => absurd hk (Nat.not_lt_zero k))⟩

/-- Claim C6: a cookie whose parsed name matches no database pattern
is appended to `uncategorized` when the name is non-empty, and is
appended nowhere (the snapshot is unchanged) when the name is
empty. -/
theorem c6_unmatched_goes_uncategorized (getDur : String → String) (acc : Snapshot)
    (cookie : String)
    (hno : ∀ pc ∈ cookieDatabase, strIncludes (parseName cookie) pc.1 = false) :
    (parseName cookie ≠ "" → scanStep getDur acc cookie =
      pushCat .uncategorized
        ⟨parseName cookie, getDur (parseName cookie), "Unknown cookie purpose"⟩ acc) ∧
    (parseName cookie = "" → scanStep getDur acc cookie = acc) := by
  have hfind : cookieDatabase.find? (fun pc => strIncludes (parseName cookie) pc.1) = none := by
    rw [List.find?_eq_none]
    intro x hx
    simp [hno x hx]
  constructor
  · intro h; simp [scanStep, hfind, h]
  · intro h; rw [h] at hfind; simp [scanStep, h, hfind]

set_option maxRecDepth 4000 in
/-- Witness for C6: `"zzz=1"` matches no database pattern and its
record is appended to `uncategorized`. -/
theorem c6_unmatched_goes_uncategorized_witness :
    (∀ pc ∈ cookieDatabase, strIncludes (parseName "zzz=1") pc.1 = false) ∧
    ((parseName "zzz=1" ≠ "" → scanStep (fun _ => "Session") emptySnapshot "zzz=1" =
      pushCat .uncategorized
        ⟨parseName "zzz=1", (fun _ : String => "Session") (parseName "zzz=1"),
         "Unknown cookie purpose"⟩ emptySnapshot) ∧
     (parseName "zzz=1" = "" →
       scanStep (fun _ => "Session") emptySnapshot "zzz=1" = emptySnapshot)) :=
  ⟨by decide,
   c6_unmatched_goes_uncategorized (fun _ => "Session") emptySnapshot "zzz=1" (by decide)⟩

/-- Claim C7 (code bug): the claim says a malformed persisted
`cookie_consent` value is treated as NoDecision (banner shown, no
exception), but `initializeCookieConsent` feeds the raw value to
`JSON.parse` with no `try`/`catch`, so on the non-JSON value `"x"` the
`SyntaxError` escapes and the banner is not shown. -/
theorem c7_malformed_persisted_throws :
    initializeCookieConsent (some "x") = .thrown ∧
    bannerShownOnInit (initializeCookieConsent (some "x")) = false := by
  decide

/-- Claim C8: persisting a consent decision (serialize, write the
`cookie_consent` cookie) and reading it back on the next load
(`getCookie` then `JSON.parse`) yields the identical decision, and
initialization then applies it instead of showing the banner. -/
theorem c8_decision_roundtrip (d : ConsentDecision) :
    getCookie "cookie_consent"
      (docCookie (setCookieJar "cookie_consent" (stringifyDecision d) [])) =
      some (stringifyDecision d) ∧
    parseDecision (stringifyDecision d) = some d ∧
    initializeCookieConsent (getCookie "cookie_consent"
      (docCookie (setCookieJar "cookie_consent" (stringifyDecision d) []))) =
      .applied d ∧
    bannerShownOnInit (initializeCookieConsent (getCookie "cookie_consent"
      (docCookie (setCookieJar "cookie_consent" (stringifyDecision d) [])))) = false := by
  have hget := getCookie_after_set d
  have hparse : parseDecision (stringifyDecision d) = some d :=
    parseChars_stringifyChars d
  have hparse2 : parseChars (stringifyDecision d).data = some d :=
    parseChars_stringifyChars d
  have hinit : initializeCookieConsent (some (stringifyDecision d)) = .applied d := by
    simp [initializeCookieConsent, parseDecision, stringifyDecision_ne_empty d, hparse2]
  refine ⟨hget, hparse, ?_, ?_⟩
  · rw [hget, hinit]
  · rw [hget, hinit]; rfl

/-- Claim C9: the Reject All flow persists a decision with status
`rejected`, hides the banner, and invokes no loader routine: its
effect trace contains the cookie write and the hide-banner action but
no load effect. -/
theorem c9_reject_all_no_loaders (ts : Nat) :
    (rejectAllDecision ts).status = .rejected ∧
    Effect.setConsentCookie (stringifyDecision (rejectAllDecision ts)) 365 ∈
      rejectAllBtnHandler ts ∧
    Effect.hideBanner ∈ rejectAllBtnHandler ts ∧
    (rejectAllBtnHandler ts).all (fun e => !isLoadEffect e) = true := by
  refine ⟨rfl, ?_, ?_, rfl⟩ <;>
    simp [rejectAllBtnHandler, rejectAllCookiesEffects, updateConsentModeEffects]

/-- Claim C10: when the uncategorized toggle input is absent from the
DOM, `saveCustomSettings` records `categories.uncategorized = false`,
while `acceptAllCookies` in the same situation records it `true`. -/
theorem c10_save_uncategorized_false (ts : Nat) (a p adv : Bool) :
    (saveCustomDecision ts a p adv none).categories.uncategorized = false ∧
    (acceptAllDecision ts).categories.uncategorized = true :=
  ⟨rfl, rfl⟩

end CookieConsent
